import Mathlib

/-!
Shallow embedding of the eci-prometheus-exporter polling-and-metrics engine:
the registration-number parser (registrationnumber.go), the threshold table
resolver (threshold.go) and the fetch/project/poll logic (eci.go), together
with proofs of the specified properties.

Strings are modelled as `List Char`; Go `time.Time` values appearing here are
always midnight UTC of a calendar date, so dates are modelled as
year/month/day triples compared lexicographically, which agrees with Go's
instant ordering for such values.
-/

namespace ECI

/-- A calendar date (the only component of the `time.Time` values used by the
exporter: all are constructed at midnight UTC). -/
structure DateT where
  year : Nat
  month : Nat
  day : Nat
  deriving DecidableEq, Repr

/-- Go's `a.After(b)` for two midnight-UTC dates: strict lexicographic
comparison on (year, month, day). -/
def DateT.after (a b : DateT) : Bool :=
  (b.year < a.year) ||
    (b.year == a.year && ((b.month < a.month) ||
      (b.month == a.month && b.day < a.day)))

/-- `MemberCountryCode` from threshold.go, a (lower-case) country code. -/
abbrev MemberCountryCode := List Char

/-- `Threshold` from threshold.go: a map from country code to signature
threshold, modelled as an association list (first match wins on lookup). -/
abbrev Threshold := List (MemberCountryCode × Int)

/-- Go map read `t[c]`: the stored value, or the zero value `0` when the key
is absent (also on the `nil` map, modelled as `[]`). -/
def thGet (t : Threshold) (c : MemberCountryCode) : Int :=
  match t.find? (fun p => p.1 == c) with
  | some p => p.2
  | none => 0

/-- The table returned for dates after 2024-07-15 (threshold.go lines 21-49). -/
def table20240715 : Threshold :=
  [("at".data, 14400), ("be".data, 15840), ("bg".data, 12240), ("cy".data, 4320),
   ("cz".data, 15120), ("dk".data, 10800), ("ee".data, 5040), ("fi".data, 10800),
   ("fr".data, 58320), ("de".data, 69120), ("gr".data, 15120), ("hu".data, 15120),
   ("ie".data, 10080), ("it".data, 54720), ("lv".data, 6480), ("lt".data, 7920),
   ("lu".data, 4320), ("mt".data, 4320), ("nl".data, 22320), ("pl".data, 38160),
   ("pt".data, 15120), ("ro".data, 23760), ("sk".data, 10800), ("si".data, 6480),
   ("es".data, 43920), ("se".data, 15120), ("hr".data, 8640)]

/-- The table returned for dates after 2020-02-01 (threshold.go lines 51-79). -/
def table20200201 : Threshold :=
  [("at".data, 13395), ("be".data, 14805), ("bg".data, 11985), ("cy".data, 4230),
   ("cz".data, 14805), ("dk".data, 9870), ("ee".data, 4935), ("fi".data, 9870),
   ("fr".data, 55695), ("de".data, 67680), ("gr".data, 14805), ("hu".data, 14805),
   ("ie".data, 9165), ("it".data, 53580), ("lv".data, 5640), ("lt".data, 7755),
   ("lu".data, 4230), ("mt".data, 4230), ("nl".data, 20445), ("pl".data, 36660),
   ("pt".data, 14805), ("ro".data, 23265), ("sk".data, 9870), ("si".data, 5640),
   ("es".data, 41595), ("se".data, 14805), ("hr".data, 8460)]

/-- The table returned for dates after 2020-01-01 (threshold.go lines 81-110). -/
def table20200101 : Threshold :=
  [("at".data, 13518), ("be".data, 15771), ("bg".data, 12767), ("cy".data, 4506),
   ("cz".data, 15771), ("dk".data, 9763), ("ee".data, 4506), ("fi".data, 9763),
   ("fr".data, 55574), ("de".data, 72096), ("gr".data, 15771), ("hu".data, 15771),
   ("ie".data, 8261), ("it".data, 54823), ("lv".data, 6008), ("lt".data, 8261),
   ("lu".data, 4506), ("mt".data, 4506), ("nl".data, 19526), ("pl".data, 38301),
   ("pt".data, 15771), ("ro".data, 24032), ("sk".data, 9763), ("si".data, 6008),
   ("es".data, 40554), ("se".data, 15020), ("gb".data, 54823), ("hr".data, 8261)]

/-- The table returned for dates after 2014-07-01 (threshold.go lines 112-141). -/
def table20140701 : Threshold :=
  [("at".data, 13500), ("be".data, 15750), ("bg".data, 12750), ("cy".data, 4500),
   ("cz".data, 15750), ("dk".data, 9750), ("ee".data, 4500), ("fi".data, 9750),
   ("fr".data, 55500), ("de".data, 72000), ("gr".data, 15750), ("hu".data, 15750),
   ("ie".data, 8250), ("it".data, 54750), ("lv".data, 6000), ("lt".data, 8250),
   ("lu".data, 4500), ("mt".data, 4500), ("nl".data, 19500), ("pl".data, 38250),
   ("pt".data, 15750), ("ro".data, 24000), ("sk".data, 9750), ("si".data, 6000),
   ("es".data, 40500), ("se".data, 15000), ("gb".data, 54750), ("hr".data, 8250)]

/-- The table returned for dates after 2012-04-01 (threshold.go lines 143-172). -/
def table20120401 : Threshold :=
  [("at".data, 14250), ("be".data, 16500), ("bg".data, 13500), ("cy".data, 4500),
   ("cz".data, 16500), ("dk".data, 9750), ("ee".data, 4500), ("fi".data, 9750),
   ("fr".data, 55500), ("de".data, 74250), ("gr".data, 16500), ("hu".data, 16500),
   ("ie".data, 9000), ("it".data, 54750), ("lv".data, 6750), ("lt".data, 9000),
   ("lu".data, 4500), ("mt".data, 4500), ("nl".data, 19500), ("pl".data, 38250),
   ("pt".data, 16500), ("ro".data, 24750), ("sk".data, 9750), ("si".data, 6000),
   ("es".data, 40500), ("se".data, 15000), ("gb".data, 54750), ("hr".data, 9000)]

/-- The five cutoff dates of the `switch` in GetThresholds. -/
def cutoff20240715 : DateT := ⟨2024, 7, 15⟩

def cutoff20200201 : DateT := ⟨2020, 2, 1⟩

def cutoff20200101 : DateT := ⟨2020, 1, 1⟩

def cutoff20140701 : DateT := ⟨2014, 7, 1⟩

def cutoff20120401 : DateT := ⟨2012, 4, 1⟩

/-- `GetThresholds` from threshold.go: per-country goals for initiatives by
registration date, dispatched by the first `registrationDate.After(cutoff)`
case that holds; the `default: return nil` branch is the empty map. -/
def GetThresholds (registrationDate : DateT) : Threshold :=
  if registrationDate.after cutoff20240715 then table20240715
  else if registrationDate.after cutoff20200201 then table20200201
  else if registrationDate.after cutoff20200101 then table20200101
  else if registrationDate.after cutoff20140701 then table20140701
  else if registrationDate.after cutoff20120401 then table20120401
  else []

/-- Modelled from the spec (§4.2 dispatch algorithm): the ordered list of
(cutoff date, table) pairs, most recent cutoff first. -/
def cutoffList : List (DateT × Threshold) :=
  [(cutoff20240715, table20240715), (cutoff20200201, table20200201),
   (cutoff20200101, table20200101), (cutoff20140701, table20140701),
   (cutoff20120401, table20120401)]

/-- Modelled from the spec (§4.2 dispatch algorithm): return the table of the
first entry of `cutoffList` whose cutoff the input date is strictly after,
and the empty table when the date is after none of them. -/
def resolveSpec (d : DateT) : Threshold :=
  match cutoffList.find? (fun p => d.after p.1) with
  | some p => p.2
  | none => []

/-- `RegistrationNumber` from registrationnumber.go: a parsed registration
number with authority, year and number components. -/
structure RegistrationNumber where
  auth : List Char
  year : List Char
  number : List Char
  deriving DecidableEq, Repr

/-- `RegistrationNumber.String`: `fmt.Sprintf("%s(%s)%s", r.Auth, r.Year,
r.Number)`. -/
def RegistrationNumber.string (r : RegistrationNumber) : List Char :=
  r.auth ++ '(' :: (r.year ++ ')' :: r.number)

/-- `ErrInvalidRegistrationNumber`: the only parse error of
registrationnumber.go. -/
inductive RNError where
  | invalidFormat
  deriving DecidableEq, Repr

/-- `ParseRegistrationNumber` from registrationnumber.go: match the anchored
regular expression `^([A-Z]+)\((\d{4})\)(\d{6})$` and return the three capture
groups, or `ErrInvalidRegistrationNumber`. Since `(` is not an upper-case
letter, the greedy `[A-Z]+` group is exactly the maximal upper-case prefix. -/
def ParseRegistrationNumber (rn : List Char) : Except RNError RegistrationNumber :=
  let auth := rn.takeWhile Char.isUpper
  match rn.dropWhile Char.isUpper with
  | '(' :: y1 :: y2 :: y3 :: y4 :: ')' :: n1 :: n2 :: n3 :: n4 :: n5 :: n6 :: [] =>
    if !auth.isEmpty && [y1, y2, y3, y4].all Char.isDigit
        && [n1, n2, n3, n4, n5, n6].all Char.isDigit then
      .ok ⟨auth, [y1, y2, y3, y4], [n1, n2, n3, n4, n5, n6]⟩
    else
      .error .invalidFormat
  | _ => .error .invalidFormat

/-- Modelled from the spec (§4.1): the valid identifier shape — one or more
upper-case letters, a parenthesized exactly-4-digit year, then exactly 6
digits, nothing before or after. -/
def MatchesShape (s : List Char) : Prop :=
  ∃ a y n, s = a ++ '(' :: (y ++ ')' :: n) ∧ a ≠ [] ∧ (∀ c ∈ a, c.isUpper) ∧
    y.length = 4 ∧ (∀ c ∈ y, c.isDigit) ∧ n.length = 6 ∧ (∀ c ∈ n, c.isDigit)

/-- Numeric value of a decimal digit character. -/
def digitVal (c : Char) : Nat := c.toNat - 48

/-- Days in a month, with Go's leap-year rule, as used by `time.Parse` to
validate the day component. -/
def daysIn (year month : Nat) : Nat :=
  if month == 2 then
    if year % 4 == 0 && (year % 100 != 0 || year % 400 == 0) then 29 else 28
  else if month == 4 || month == 6 || month == 9 || month == 11 then 30
  else 31

/-- Go `time.Parse("02/01/2006", s)` restricted to its success/failure result
and the calendar date produced: the string must be exactly two day digits,
`/`, two month digits, `/`, four year digits, with the month in 1..12 and the
day in 1..daysIn; anything else (wrong length, wrong separators, non-digits,
out-of-range components) fails. -/
def parseDDMMYYYY (s : List Char) : Option DateT :=
  match s with
  | [d1, d2, s1, m1, m2, s2, y1, y2, y3, y4] =>
    if d1.isDigit && d2.isDigit && s1 == '/' && m1.isDigit && m2.isDigit
        && s2 == '/' && y1.isDigit && y2.isDigit && y3.isDigit && y4.isDigit then
      let day := 10 * digitVal d1 + digitVal d2
      let month := 10 * digitVal m1 + digitVal m2
      let year := 1000 * digitVal y1 + 100 * digitVal y2 + 10 * digitVal y3 + digitVal y4
      if 1 ≤ month && month ≤ 12 && 1 ≤ day && day ≤ daysIn year month then
        some ⟨year, month, day⟩
      else none
    else none
  | _ => none

/-- `SOSEntry` from eci.go: one per-country signature count in the API
response (`countryCodeType`, `total`). -/
structure SOSEntry where
  countryCode : List Char
  total : Int
  deriving DecidableEq, Repr

/-- `SOSReport` from eci.go (the `updateDate` field is never read by the
exporter logic and is omitted). -/
structure SOSReport where
  totalSignatures : Int
  entries : List SOSEntry
  deriving DecidableEq, Repr

/-- `ProgressResponse` from eci.go: the decoded ECI API response body. -/
structure ProgressResponse where
  registrationDate : List Char
  sosReport : SOSReport
  deriving DecidableEq, Repr

/-- Result of decoding the response body: either not valid JSON (the decoder
fails) or a decoded `ProgressResponse`. -/
inductive BodyDecode where
  | notJson
  | json (p : ProgressResponse)
  deriving DecidableEq, Repr

/-- The environment a single `FetchAndUpdateMetrics` call runs against: the
request construction can fail (cancelled context, malformed URL), the
transport can fail (`HTTPClient.Do` error), or a response with some status
code and body arrives. -/
inductive HTTPOutcome where
  | reqError
  | transportError
  | response (status : Nat) (body : BodyDecode)
  deriving DecidableEq, Repr

/-- The distinct error results of `FetchAndUpdateMetrics` in eci.go:
`make request: ...`, `err doing request: ...`, `ErrNon200`,
`decode json: ...`, `cannot parse registration date: ...`. -/
inductive FetchError where
  | requestConstructionFailed
  | transportFailed
  | non200
  | decodeFailed
  | dateParseFailed
  deriving DecidableEq, Repr

/-- A labelled gauge vector (`prometheus.GaugeVec` with labels
(initiative_id, country_code)), modelled as the list of performed `Set`
writes, newest first; a lookup reads the newest write for its label pair. -/
abbrev GaugeState := List ((List Char × List Char) × Int)

/-- The current value of a gauge at a label pair: the newest `Set` for that
pair, `none` if the pair was never written. -/
def gaugeAt (g : GaugeState) (l : List Char × List Char) : Option Int :=
  match g.find? (fun p => p.1 == l) with
  | some p => some p.2
  | none => none

/-- The instrument state of the application: the two gauge vectors and, for
the call-duration histogram, the number of recorded observations. -/
structure Metrics where
  signatureCount : GaugeState
  signatureGoal : GaugeState
  apiDurationObs : Nat
  deriving DecidableEq, Repr

/-- `strings.ToLower` on the country codes appearing here (ASCII). -/
def lowerStr (s : List Char) : List Char := s.map Char.toLower

/-- The body of the projection loop of `FetchAndUpdateMetrics` (eci.go lines
165-168): set the signature gauge at (initiative, entry country code) to the
entry total, and the goal gauge at the same label pair to the threshold-table
value at the lower-cased country code. -/
def writeEntry (rnStr : List Char) (th : Threshold) (m : Metrics) (e : SOSEntry) : Metrics :=
  { m with
    signatureCount := ((rnStr, e.countryCode), e.total) :: m.signatureCount,
    signatureGoal :=
      ((rnStr, e.countryCode), thGet th (lowerStr e.countryCode)) :: m.signatureGoal }

/-- One observation of the per-initiative call-duration histogram
(`timer.ObserveDuration()`). -/
def observe (m : Metrics) : Metrics := { m with apiDurationObs := m.apiDurationObs + 1 }

/-- `FetchAndUpdateMetrics` from eci.go, over an explicit `HTTPOutcome`: the
timer is started after request construction and observed immediately after
`HTTPClient.Do` returns (so a request-construction failure records nothing,
every other path records exactly one observation); then the status, JSON
decode and registration-date checks run in order, and on success the
thresholds for the registration date are resolved and every report entry is
projected into the two gauges. -/
def FetchAndUpdateMetrics (rn : RegistrationNumber) (out : HTTPOutcome)
    (m : Metrics) : Except FetchError Unit × Metrics :=
  match out with
  | .reqError => (.error .requestConstructionFailed, m)
  | .transportError => (.error .transportFailed, observe m)
  | .response status body =>
    let m := observe m
    if status != 200 then (.error .non200, m)
    else
      match body with
      | .notJson => (.error .decodeFailed, m)
      | .json data =>
        match parseDDMMYYYY data.registrationDate with
        | none => (.error .dateParseFailed, m)
        | some registrationDate =>
          let th := GetThresholds registrationDate
          (.ok (), data.sosReport.entries.foldl (writeEntry rn.string th) m)

/-- `StartPolling` from eci.go, over an explicit tick count: one fetch
immediately on start (before any tick), then one fetch per tick, each under a
fresh context; the fetch's error result is discarded (`_ =`) and the loop
continues. `outs i` is the HTTP outcome seen by the fetch of iteration `i`.
Returns the final metrics and the number of fetches performed. -/
def StartPolling (rn : RegistrationNumber) (outs : Nat → HTTPOutcome)
    (m : Metrics) : Nat → Metrics × Nat
  | 0 => ((FetchAndUpdateMetrics rn (outs 0) m).2, 1)
  | n + 1 =>
    let s := StartPolling rn outs m n
    ((FetchAndUpdateMetrics rn (outs (n + 1)) s.1).2, s.2 + 1)

/-- The initiative `ECI(2024)000007` used throughout the tests. -/
def sampleRN : RegistrationNumber := ⟨"ECI".data, "2024".data, "000007".data⟩

/-- Fresh instrument state: no gauge writes, no histogram observations. -/
def emptyMetrics : Metrics := ⟨[], [], 0⟩

/-- The scenario-A response body: registrationDate 19/06/2024, total
1149248, one per-country entry (NL, 75811). -/
def responseA : ProgressResponse := ⟨"19/06/2024".data, ⟨1149248, [⟨"NL".data, 75811⟩]⟩⟩

/-- A response body whose registrationDate is not a DD/MM/YYYY date. -/
def badDateResponse : ProgressResponse := ⟨"not a date".data, ⟨0, []⟩⟩

/-- The projection loop never touches the histogram: folding `writeEntry`
leaves the observation count unchanged. -/
theorem foldl_writeEntry_apiDurationObs (rnStr : List Char) (th : Threshold)
    (entries : List SOSEntry) (m : Metrics) :
    (entries.foldl (writeEntry rnStr th) m).apiDurationObs = m.apiDurationObs := by
  induction entries generalizing m with
  | nil => rfl
  | cons e rest ih => simpa [writeEntry] using ih (writeEntry rnStr th m e)

/-- In a table whose values are all positive, a zero lookup means exactly
that the key is absent. -/
theorem thGet_eq_zero_iff_of_pos (t : Threshold) (hpos : ∀ p ∈ t, 0 < p.2)
    (c : MemberCountryCode) :
    thGet t c = 0 ↔ t.find? (fun p => p.1 == c) = none := by
  unfold thGet
  cases h : t.find? (fun p => p.1 == c) with
  | none => simp
  | some p =>
    have hmem : p ∈ t := List.mem_of_find?_eq_some h
    have := hpos p hmem
    simp only [reduceCtorEq, iff_false]
    omega

/-- C3: GetThresholds implements the dispatch rule — it returns the table of
the first entry of the most-recent-first cutoff list whose cutoff the input
date is strictly after; every date strictly after 2024-07-15 gets the newest
table, and a date not strictly after any cutoff gets the empty table, in
which every country lookup yields zero. -/
theorem getThresholds_dispatch (d : DateT) :
    GetThresholds d = resolveSpec d ∧
    (d.after cutoff20240715 = true → GetThresholds d = table20240715) ∧
    ((∀ p ∈ cutoffList, d.after p.1 = false) →
      GetThresholds d = [] ∧ ∀ c, thGet (GetThresholds d) c = 0) := by
  refine ⟨?_, ?_, ?_⟩
  · unfold GetThresholds resolveSpec cutoffList
    cases h1 : d.after cutoff20240715 <;>
      cases h2 : d.after cutoff20200201 <;>
        cases h3 : d.after cutoff20200101 <;>
          cases h4 : d.after cutoff20140701 <;>
            cases h5 : d.after cutoff20120401 <;>
              simp [List.find?, h1, h2, h3, h4, h5]
  · intro h
    simp [GetThresholds, h]
  · intro h
    have h1 := h (cutoff20240715, table20240715) (by simp [cutoffList])
    have h2 := h (cutoff20200201, table20200201) (by simp [cutoffList])
    have h3 := h (cutoff20200101, table20200101) (by simp [cutoffList])
    have h4 := h (cutoff20140701, table20140701) (by simp [cutoffList])
    have h5 := h (cutoff20120401, table20120401) (by simp [cutoffList])
    have hempty : GetThresholds d = [] := by
      simp [GetThresholds, h1, h2, h3, h4, h5]
    exact ⟨hempty, fun c => by simp [hempty, thGet]⟩

/-- Witness for C3 at concrete dates: 2025-01-01 is after the newest cutoff
and resolves to the newest table; 2011-01-01 is after no cutoff and resolves
to the empty table with a zero lookup. -/
theorem getThresholds_dispatch_witness :
    GetThresholds ⟨2025, 1, 1⟩ = table20240715 ∧
    (GetThresholds ⟨2011, 1, 1⟩ = [] ∧ ∀ c, thGet (GetThresholds ⟨2011, 1, 1⟩) c = 0) :=
  ⟨(getThresholds_dispatch ⟨2025, 1, 1⟩).2.1 (by decide),
   (getThresholds_dispatch ⟨2011, 1, 1⟩).2.2 (by decide)⟩

/-- C10: every threshold stored in any table GetThresholds can return is
strictly positive, so a zero lookup result means exactly that the (already
lower-cased) country code is absent from the resolved table — which includes
the empty table of a too-early registration date. -/
theorem thresholds_positive_zero_means_absent (d : DateT) (c : MemberCountryCode) :
    (∀ p ∈ GetThresholds d, 0 < p.2) ∧
    (thGet (GetThresholds d) c = 0 ↔
      (GetThresholds d).find? (fun p => p.1 == c) = none) := by
  have hpos : ∀ p ∈ GetThresholds d, 0 < p.2 := by
    unfold GetThresholds
    repeat' split
    all_goals decide
  exact ⟨hpos, thGet_eq_zero_iff_of_pos _ hpos c⟩

/-- Witness for C10: a concrete positive entry of the newest table, and a
concrete absent code looking up as zero. -/
theorem thresholds_positive_zero_means_absent_witness :
    (0 : Int) < 14400 ∧
    (GetThresholds ⟨2011, 1, 1⟩).find? (fun p => p.1 == "nl".data) = none :=
  ⟨(thresholds_positive_zero_means_absent ⟨2025, 1, 1⟩ "nl".data).1
      ("at".data, 14400) (by decide),
   (thresholds_positive_zero_means_absent ⟨2011, 1, 1⟩ "nl".data).2.mp (by decide)⟩

/-- C8 counterexample: no later cutoff's table adds a country code that the
earliest (2012-04-01) table lacks — every code of every later table is
already a key of the earliest table, so the claimed later-added member state
does not exist. -/
theorem tables_no_later_added_code :
    (((table20140701 ++ table20200101 ++ table20200201 ++ table20240715).map
        (fun p => p.1)).all
      (fun c => (table20120401.map (fun p => p.1)).contains c)) = true := by
  decide

/-- C8 amended: the jurisdiction set does vary across cutoffs, but by
removal, not addition — the earliest table contains "gb", which the two most
recent tables lack — and the newest table revises every per-country count
upward relative to its predecessor (the 2020-02-01 table). -/
theorem tables_jurisdictions_vary :
    "gb".data ∈ table20120401.map (fun p => p.1) ∧
    "gb".data ∉ table20240715.map (fun p => p.1) ∧
    "gb".data ∉ table20200201.map (fun p => p.1) ∧
    (table20240715.all (fun p => thGet table20200201 p.1 < p.2)) = true := by
  refine ⟨by decide, by decide, by decide, by decide⟩

/-- C7 counterexample: when request construction fails, the call records no
histogram observation at all (the timer is only started after the request is
built), contradicting exactly-one-observation-regardless-of-outcome. -/
theorem fetch_reqError_no_observation :
    (FetchAndUpdateMetrics sampleRN .reqError emptyMetrics).2.apiDurationObs = 0 := rfl

/-- C7 amended: every call records exactly one call-duration observation —
on success, transport failure, non-200 status, decode failure and date-parse
failure alike — except a request-construction failure, which returns before
the timer exists and records none. -/
theorem fetch_observes_histogram (rn : RegistrationNumber) (out : HTTPOutcome)
    (m : Metrics) :
    (FetchAndUpdateMetrics rn out m).2.apiDurationObs =
      m.apiDurationObs + (match out with | .reqError => 0 | _ => 1) := by
  cases out with
  | reqError => rfl
  | transportError => rfl
  | response status body =>
    show (FetchAndUpdateMetrics rn (.response status body) m).2.apiDurationObs
        = m.apiDurationObs + 1
    cases hs : status != 200 with
    | true => simp [FetchAndUpdateMetrics, hs, observe]
    | false =>
      cases body with
      | notJson => simp [FetchAndUpdateMetrics, hs, observe]
      | json data =>
        cases hp : parseDDMMYYYY data.registrationDate with
        | none => simp [FetchAndUpdateMetrics, hs, hp, observe]
        | some rd =>
          simp [FetchAndUpdateMetrics, hs, hp, observe, foldl_writeEntry_apiDurationObs]

/-- C9: the polling loop fetches once immediately on start (`StartPolling rn
outs m 0` performs one fetch before any tick), then exactly once per tick,
and the number of fetches after n ticks is n+1 for every outcome sequence —
errors are swallowed and never stop or delay the loop — with each iteration
continuing from the previous iteration's instrument state. -/
theorem startPolling_one_fetch_per_tick (rn : RegistrationNumber)
    (outs : Nat → HTTPOutcome) (m : Metrics) (n : Nat) :
    (StartPolling rn outs m n).2 = n + 1 ∧
    StartPolling rn outs m 0 =
      ((FetchAndUpdateMetrics rn (outs 0) m).2, 1) ∧
    (StartPolling rn outs m (n + 1)).1 =
      (FetchAndUpdateMetrics rn (outs (n + 1)) (StartPolling rn outs m n).1).2 := by
  refine ⟨?_, rfl, rfl⟩
  induction n with
  | zero => rfl
  | succ k ih => simpa [StartPolling] using ih

/-- C1 counterexample: in scenario A the fetch succeeds, but the gauges are
written under the country code exactly as received ("NL"), not lower-cased,
so nothing is set at the claimed label pair (initiative, "nl"). -/
theorem scenarioA_label_not_lowercased :
    (FetchAndUpdateMetrics sampleRN (.response 200 (.json responseA)) emptyMetrics).1
      = .ok () ∧
    gaugeAt (FetchAndUpdateMetrics sampleRN (.response 200 (.json responseA))
        emptyMetrics).2.signatureCount ("ECI(2024)000007".data, "nl".data) = none := by
  exact ⟨rfl, by decide⟩

/-- C1 amended: scenario A succeeds and sets eci_signatures at (initiative
"ECI(2024)000007", country code "NL" as received) to 75811 and the threshold
gauge at the same label pair to 20445 — the NL value of the 2020-02-01 table,
selected by the resolver's date-range rule (19/06/2024 is not after the
2024-07-15 cutoff), looked up under the lower-cased code. -/
theorem scenarioA_amended :
    (FetchAndUpdateMetrics sampleRN (.response 200 (.json responseA)) emptyMetrics).1
      = .ok () ∧
    gaugeAt (FetchAndUpdateMetrics sampleRN (.response 200 (.json responseA))
        emptyMetrics).2.signatureCount ("ECI(2024)000007".data, "NL".data)
      = some 75811 ∧
    gaugeAt (FetchAndUpdateMetrics sampleRN (.response 200 (.json responseA))
        emptyMetrics).2.signatureGoal ("ECI(2024)000007".data, "NL".data)
      = some 20445 ∧
    parseDDMMYYYY "19/06/2024".data = some ⟨2024, 6, 19⟩ ∧
    GetThresholds ⟨2024, 6, 19⟩ = table20200201 ∧
    thGet table20200201 (lowerStr "NL".data) = 20445 := by
  refine ⟨rfl, by decide, by decide, by decide, by decide, by decide⟩

/-- C2 counterexample: for the received code "NL", the projection writes both
gauges at label "NL" — the code as received — and nothing at the lower-cased
label "nl" (only the threshold-table lookup key is lower-cased). -/
theorem writeEntry_label_casing_cex :
    gaugeAt (writeEntry "X".data table20200201 emptyMetrics
        ⟨"NL".data, 5⟩).signatureCount ("X".data, "nl".data) = none ∧
    gaugeAt (writeEntry "X".data table20200201 emptyMetrics
        ⟨"NL".data, 5⟩).signatureCount ("X".data, "NL".data) = some 5 ∧
    gaugeAt (writeEntry "X".data table20200201 emptyMetrics
        ⟨"NL".data, 5⟩).signatureGoal ("X".data, "NL".data) = some 20445 := by
  refine ⟨by decide, by decide, by decide⟩

/-- C2 amended: for every entry, both gauge writes use the country code
exactly as received as the country_code label value, while the
threshold-table lookup key is its lower-cased form; no other label pair is
touched by the write. -/
theorem writeEntry_labels (rnStr : List Char) (th : Threshold) (m : Metrics)
    (e : SOSEntry) :
    gaugeAt (writeEntry rnStr th m e).signatureCount (rnStr, e.countryCode)
      = some e.total ∧
    gaugeAt (writeEntry rnStr th m e).signatureGoal (rnStr, e.countryCode)
      = some (thGet th (lowerStr e.countryCode)) ∧
    (∀ l, l ≠ (rnStr, e.countryCode) →
      gaugeAt (writeEntry rnStr th m e).signatureCount l = gaugeAt m.signatureCount l ∧
      gaugeAt (writeEntry rnStr th m e).signatureGoal l = gaugeAt m.signatureGoal l) := by
  refine ⟨?_, ?_, ?_⟩
  · simp [writeEntry, gaugeAt, List.find?]
  · simp [writeEntry, gaugeAt, List.find?]
  · intro l hl
    have hne : ((rnStr, e.countryCode) == l) = false := by
      simp only [beq_eq_false_iff_ne, ne_eq]
      exact fun h => hl h.symm
    constructor <;> simp [writeEntry, gaugeAt, List.find?, hne]

/-- Witness for C2 amended: the frame clause at a concrete untouched label. -/
theorem writeEntry_labels_witness :
    gaugeAt (writeEntry "X".data table20200201 emptyMetrics
        ⟨"NL".data, 5⟩).signatureCount ("Y".data, "NL".data) = none :=
  ((writeEntry_labels "X".data table20200201 emptyMetrics ⟨"NL".data, 5⟩).2.2
      ("Y".data, "NL".data) (by decide)).1.trans rfl

/-- C5: each failure mode of FetchAndUpdateMetrics returns an error, and the
five errors — request construction, transport, any non-200 status, JSON
decode, registration-date parse — are pairwise distinct. -/
theorem fetch_errors_distinct (rn : RegistrationNumber) (m : Metrics) :
    (FetchAndUpdateMetrics rn .reqError m).1 = .error .requestConstructionFailed ∧
    (FetchAndUpdateMetrics rn .transportError m).1 = .error .transportFailed ∧
    (∀ status body, status ≠ 200 →
      (FetchAndUpdateMetrics rn (.response status body) m).1 = .error .non200) ∧
    (FetchAndUpdateMetrics rn (.response 200 .notJson) m).1 = .error .decodeFailed ∧
    (∀ p, parseDDMMYYYY p.registrationDate = none →
      (FetchAndUpdateMetrics rn (.response 200 (.json p)) m).1
        = .error .dateParseFailed) ∧
    [FetchError.requestConstructionFailed, FetchError.transportFailed,
      FetchError.non200, FetchError.decodeFailed,
      FetchError.dateParseFailed].Pairwise (fun a b => a ≠ b) := by
  refine ⟨rfl, rfl, ?_, rfl, ?_, by decide⟩
  · intro status body hs
    have hb : (status != 200) = true := by simpa [bne_iff_ne] using hs
    simp [FetchAndUpdateMetrics, hb]
  · intro p hp
    simp [FetchAndUpdateMetrics, hp]

/-- Witness for C5: a 500 status yields the non-200 error, and an unparsable
registration date yields the date-parse error, at concrete inputs. -/
theorem fetch_errors_distinct_witness :
    (FetchAndUpdateMetrics sampleRN (.response 500 .notJson) emptyMetrics).1
      = .error .non200 ∧
    (FetchAndUpdateMetrics sampleRN (.response 200 (.json badDateResponse))
        emptyMetrics).1 = .error .dateParseFailed :=
  ⟨(fetch_errors_distinct sampleRN emptyMetrics).2.2.1 500 .notJson (by decide),
   (fetch_errors_distinct sampleRN emptyMetrics).2.2.2.2.1 badDateResponse rfl⟩

/-- C6: whenever FetchAndUpdateMetrics returns an error — on any of its five
failure paths — both gauge vectors are exactly as they were before the call:
no signature or threshold value is written. -/
theorem fetch_error_preserves_gauges (rn : RegistrationNumber) (out : HTTPOutcome)
    (m : Metrics) (e : FetchError)
    (h : (FetchAndUpdateMetrics rn out m).1 = .error e) :
    (FetchAndUpdateMetrics rn out m).2.signatureCount = m.signatureCount ∧
    (FetchAndUpdateMetrics rn out m).2.signatureGoal = m.signatureGoal := by
  cases out with
  | reqError => exact ⟨rfl, rfl⟩
  | transportError => exact ⟨rfl, rfl⟩
  | response status body =>
    cases hs : status != 200 with
    | true => simp [FetchAndUpdateMetrics, hs, observe]
    | false =>
      cases body with
      | notJson => simp [FetchAndUpdateMetrics, hs, observe]
      | json data =>
        cases hp : parseDDMMYYYY data.registrationDate with
        | none => simp [FetchAndUpdateMetrics, hs, hp, observe]
        | some rd =>
          exfalso
          simp [FetchAndUpdateMetrics, hs, hp] at h

/-- Witness for C6: a transport failure at concrete inputs leaves both gauge
vectors untouched. -/
theorem fetch_error_preserves_gauges_witness :
    (FetchAndUpdateMetrics sampleRN .transportError emptyMetrics).2.signatureCount
      = emptyMetrics.signatureCount ∧
    (FetchAndUpdateMetrics sampleRN .transportError emptyMetrics).2.signatureGoal
      = emptyMetrics.signatureGoal :=
  fetch_error_preserves_gauges sampleRN .transportError emptyMetrics
    .transportFailed rfl

/-- takeWhile/dropWhile of a block satisfying `p` followed by an element
refuting `p`: the block is taken whole and the rest is dropped whole. -/
theorem takeWhile_dropWhile_block (p : Char → Bool) (a : List Char) (b : Char)
    (t : List Char) (ha : ∀ c ∈ a, p c = true) (hb : p b = false) :
    (a ++ b :: t).takeWhile p = a ∧ (a ++ b :: t).dropWhile p = b :: t := by
  induction a with
  | nil => simp [List.takeWhile_cons, List.dropWhile_cons, hb]
  | cons c cs ih =>
    have hc : p c = true := ha c (by simp)
    have ih' := ih fun x hx => ha x (by simp [hx])
    simp [List.takeWhile_cons, List.dropWhile_cons, hc, ih'.1, ih'.2]

/-- A successful parse decomposes its input into the three matched groups,
with the shape the regular expression demands. -/
theorem parse_ok_decomp (s : List Char) (r : RegistrationNumber)
    (h : ParseRegistrationNumber s = .ok r) :
    s = r.auth ++ '(' :: (r.year ++ ')' :: r.number) ∧ r.auth ≠ [] ∧
    (∀ c ∈ r.auth, c.isUpper) ∧ r.year.length = 4 ∧ (∀ c ∈ r.year, c.isDigit) ∧
    r.number.length = 6 ∧ (∀ c ∈ r.number, c.isDigit) := by
  unfold ParseRegistrationNumber at h
  split at h
  case h_2 => simp at h
  case h_1 y1 y2 y3 y4 n1 n2 n3 n4 n5 n6 heq =>
    dsimp only at h
    split at h
    case isFalse => simp at h
    case isTrue hc =>
      rw [Bool.and_eq_true, Bool.and_eq_true] at hc
      obtain ⟨⟨hne, hyd⟩, hnd⟩ := hc
      obtain rfl : r = ⟨s.takeWhile Char.isUpper, [y1, y2, y3, y4],
          [n1, n2, n3, n4, n5, n6]⟩ := by
        cases h
        rfl
      refine ⟨?_, ?_, ?_, rfl, List.all_eq_true.mp hyd, rfl, List.all_eq_true.mp hnd⟩
      · conv_lhs => rw [← List.takeWhile_append_dropWhile Char.isUpper s]
        rw [heq]
        rfl
      · intro h0
        dsimp only at h0
        rw [h0] at hne
        simp at hne
      · exact fun c hc => List.mem_takeWhile_imp hc

/-- Evaluating the parser on a string of the valid shape, given explicitly
as block ++ parenthesized 4 digits ++ 6 digits. -/
theorem parse_of_block (a : List Char) (y1 y2 y3 y4 n1 n2 n3 n4 n5 n6 : Char)
    (ha : ∀ c ∈ a, Char.isUpper c = true) (hne : a ≠ [])
    (hyd : ([y1, y2, y3, y4].all Char.isDigit) = true)
    (hnd : ([n1, n2, n3, n4, n5, n6].all Char.isDigit) = true) :
    ParseRegistrationNumber
        (a ++ '(' :: y1 :: y2 :: y3 :: y4 :: ')' ::
          n1 :: n2 :: n3 :: n4 :: n5 :: n6 :: []) =
      .ok ⟨a, [y1, y2, y3, y4], [n1, n2, n3, n4, n5, n6]⟩ := by
  have hblock := takeWhile_dropWhile_block Char.isUpper a '('
    (y1 :: y2 :: y3 :: y4 :: ')' :: n1 :: n2 :: n3 :: n4 :: n5 :: n6 :: [])
    ha (by decide)
  have hemp : a.isEmpty = false := by
    cases a with
    | nil => exact absurd rfl hne
    | cons c cs => rfl
  unfold ParseRegistrationNumber
  rw [hblock.2, hblock.1]
  simp [hemp, hyd, hnd]

/-- C4: ParseRegistrationNumber succeeds exactly on strings of the anchored
shape letters-parenthesized-4-digit-year-6-digits; every success round-trips
through String, and every failure is the InvalidFormat error. -/
theorem parseRegistrationNumber_spec (s : List Char) :
    ((∃ r, ParseRegistrationNumber s = .ok r) ↔ MatchesShape s) ∧
    (∀ r, ParseRegistrationNumber s = .ok r → r.string = s) ∧
    (∀ e, ParseRegistrationNumber s = .error e → e = .invalidFormat) := by
  refine ⟨⟨?_, ?_⟩, ?_, ?_⟩
  · rintro ⟨r, hr⟩
    obtain ⟨hs, hne, hup, hy4, hyd, hn6, hnd⟩ := parse_ok_decomp s r hr
    exact ⟨r.auth, r.year, r.number, hs, hne, hup, hy4, hyd, hn6, hnd⟩
  · rintro ⟨a, y, n, hs, hne, hup, hy4, hyd, hn6, hnd⟩
    obtain ⟨y1, y2, y3, y4, rfl⟩ : ∃ y1 y2 y3 y4, y = [y1, y2, y3, y4] := by
      rcases y with _ | ⟨y1, _ | ⟨y2, _ | ⟨y3, _ | ⟨y4, _ | ⟨y5, t⟩⟩⟩⟩⟩ <;>
        simp_all
    obtain ⟨n1, n2, n3, n4, n5, n6, rfl⟩ :
        ∃ n1 n2 n3 n4 n5 n6, n = [n1, n2, n3, n4, n5, n6] := by
      rcases n with _ | ⟨n1, _ | ⟨n2, _ | ⟨n3, _ | ⟨n4, _ | ⟨n5, _ | ⟨n6, _ | ⟨n7, t⟩⟩⟩⟩⟩⟩⟩ <;>
        simp_all
    subst hs
    exact ⟨⟨a, [y1, y2, y3, y4], [n1, n2, n3, n4, n5, n6]⟩,
      parse_of_block a y1 y2 y3 y4 n1 n2 n3 n4 n5 n6 hup hne
        (List.all_eq_true.mpr hyd) (List.all_eq_true.mpr hnd)⟩
  · intro r hr
    exact ((parse_ok_decomp s r hr).1).symm
  · intro e he
    cases e
    rfl

/-- Witness for C4 at the concrete identifier ECI(2024)000007: it parses,
round-trips, and matches the shape. -/
theorem parseRegistrationNumber_spec_witness :
    RegistrationNumber.string ⟨"ECI".data, "2024".data, "000007".data⟩
      = "ECI(2024)000007".data ∧
    MatchesShape "ECI(2024)000007".data :=
  ⟨(parseRegistrationNumber_spec "ECI(2024)000007".data).2.1
      ⟨"ECI".data, "2024".data, "000007".data⟩ rfl,
   (parseRegistrationNumber_spec "ECI(2024)000007".data).1.mp
      ⟨⟨"ECI".data, "2024".data, "000007".data⟩, rfl⟩⟩

end ECI
